import Mathlib

/-!
Verification of the generic-image-classifier pipeline.

This file shallowly embeds the input-resolution utility
(`src/utils/imageio.py`) and the zero-shot scoring pipeline
(`src/core/ml/classifier.py`, `src/facade.py`) and proves or refutes the
frozen specification claims about them.

Modelling conventions:
- numpy arrays are modelled as `List Nat` (the flat sample buffer);
  `np.empty(0)` is `[]`.
- external effects (network fetch, file system, PIL decoding, base64
  decoding) are oracle functions gathered in a `ResolverEnv`; the CLIP
  model is an `EmbedOracle`.
- a Python function that can raise is embedded as `Except PyErr _`;
  each `PyErr` constructor names the Python exception class raised.
- real-valued tensor arithmetic is modelled over `ℝ`.
-/

/-- Python exception classes that the embedded code can raise. -/
inductive PyErr where
  | valueError
  | indexError
  | binasciiError
  | typeError
deriving DecidableEq, Repr

/-- Decidable equality for `Except`, used to evaluate the embedded
fallible functions on closed inputs. -/
instance {ε α : Type} [DecidableEq ε] [DecidableEq α] :
    DecidableEq (Except ε α) := fun x y =>
  match x, y with
  | Except.ok a, Except.ok b => decidable_of_iff (a = b) (by simp)
  | Except.error a, Except.error b => decidable_of_iff (a = b) (by simp)
  | Except.ok _, Except.error _ => isFalse (fun hc => Except.noConfusion hc)
  | Except.error _, Except.ok _ => isFalse (fun hc => Except.noConfusion hc)

/-- Oracles for the external effects used by `src/utils/imageio.py`:
`fetch` is `requests.get` (content bytes and the Content-Type header),
`pathExists` is `os.path.exists`, `readFile` is `open(...).read()`,
`imgDecode` is `PIL.Image.open` followed by `np.array`, and `b64decode`
is `base64.b64decode` (`none` models a raised `binascii.Error`). -/
structure ResolverEnv where
  fetch : String → List Nat × String
  pathExists : String → Bool
  readFile : String → List Nat
  imgDecode : List Nat → List Nat
  b64decode : String → Option (List Nat)

/-- The possible runtime types of the `input_data` argument of
`image_input_to_array`: a numpy array, `bytes`, `str`, or some other
object (an `int` or `None`), dispatched on by `isinstance` checks. -/
inductive InputData where
  | ndarray (a : List Nat)
  | byteData (b : List Nat)
  | strData (s : String)
  | intData (n : Int)
  | noneData
deriving DecidableEq, Repr

/-- Embeds `image_url_to_array` (imageio.py:86): `requests.get(url)`,
then decode `response.content`; the response headers are not consulted. -/
def image_url_to_array (env : ResolverEnv) (url : String) : List Nat :=
  env.imgDecode (env.fetch url).1

/-- Embeds `image_file_to_array` (imageio.py:72). -/
def image_file_to_array (env : ResolverEnv) (path : String) : List Nat :=
  env.imgDecode (env.readFile path)

/-- Embeds `image_bytes_to_array` (imageio.py:131). -/
def image_bytes_to_array (env : ResolverEnv) (b : List Nat) : List Nat :=
  env.imgDecode b

/-- Splits a character list at every occurrence of the separator
character, the character-level meaning of Python `str.split` with a
one-character separator. -/
def splitOnCharAux (sep : Char) : List Char → List Char → List (List Char)
  | [], acc => [acc.reverse]
  | c :: cs, acc =>
    if c = sep then acc.reverse :: splitOnCharAux sep cs []
    else splitOnCharAux sep cs (c :: acc)

/-- Embeds Python `s.split(sep)` for a one-character separator. -/
def splitOnChar (sep : Char) (s : String) : List String :=
  (splitOnCharAux sep s.data []).map (fun cs => String.mk cs)

/-- Embeds Python `s.startswith(p)`: the characters of `p` are a prefix
of the characters of `s`. -/
def strStartsWith (s p : String) : Bool :=
  p.data.isPrefixOf s.data

/-- Embeds Python `s.split(";", 1)` followed by unpacking into two
variables: `none` when the separator is absent (the unpack raises
`ValueError`), otherwise the part before the first `;` and everything
after it. -/
def splitSemiOnce (s : String) : Option (String × String) :=
  match splitOnChar ';' s with
  | [_] => none
  | a :: rest => some (a, String.mk (List.intercalate [';'] (rest.map String.data)))
  | [] => none

/-- Embeds Python `s.split(sep)[i]` for a one-character separator:
raises `IndexError` when the index is out of range. -/
def indexSplit (s : String) (sep : Char) (i : Nat) : Except PyErr String :=
  match (splitOnChar sep s).get? i with
  | some v => Except.ok v
  | none => Except.error PyErr.indexError

/-- Embeds `base64_to_bytes` (imageio.py:145): strings with a `data:`
prefix have the mime extracted from the header and the payload taken
after the first comma; other strings are decoded whole with mime
`"unknown"`. -/
def base64_to_bytes (env : ResolverEnv) (s : String) :
    Except PyErr (List Nat × String) :=
  if strStartsWith s "data:" then
    match splitSemiOnce s with
    | none => Except.error PyErr.valueError
    | some (m, rest) =>
      match indexSplit m ':' 1 with
      | Except.error e => Except.error e
      | Except.ok mime =>
        match indexSplit rest ',' 1 with
        | Except.error e => Except.error e
        | Except.ok payload =>
          match env.b64decode payload with
          | none => Except.error PyErr.binasciiError
          | some bs => Except.ok (bs, mime)
  else
    match env.b64decode s with
    | none => Except.error PyErr.binasciiError
    | some bs => Except.ok (bs, "unknown")

/-- Embeds `image_base64_to_array` (imageio.py:168): decode the base64
payload, then decode the resulting bytes as an image. -/
def image_base64_to_array (env : ResolverEnv) (s : String) :
    Except PyErr (List Nat × String) :=
  match base64_to_bytes env s with
  | Except.error e => Except.error e
  | Except.ok (bs, mime) => Except.ok (env.imgDecode bs, mime)

/-- Embeds `image_input_to_array` (imageio.py:225-266).  The locals
`image_array` and `inferred_mime` start as `np.empty(0)` and
`"image/jpeg"`; branches that never assign one of them return the
initial value.  The inner `elif isinstance(input_data, str)` on line 252
is evaluated inside the outer `str` branch, so it is the constant
`true`, and the `raise TypeError` on line 265 is its dead `else`.  A
base64 failure (`binascii.Error` or `ValueError`) is caught on line 262
and the initial values are returned; other exceptions propagate.  Inputs
that are not arrays, bytes or strings match no branch and fall through
to the final `return`. -/
def image_input_to_array (env : ResolverEnv) (input : InputData)
    (mime : Option String) : Except PyErr (List Nat × String) :=
  match input with
  | InputData.ndarray a => Except.ok (a, "image/jpeg")
  | InputData.byteData b =>
    Except.ok (image_bytes_to_array env b,
      match mime with
      | some m => if m = "" then "image/jpeg" else m
      | none => "image/jpeg")
  | InputData.strData s =>
    if strStartsWith s "http://" || strStartsWith s "https://" then
      Except.ok (image_url_to_array env s, "image/jpeg")
    else if (true : Bool) then
      if env.pathExists s then
        Except.ok (image_file_to_array env s, "image/jpeg")
      else
        match image_base64_to_array env s with
        | Except.ok (a, m) => Except.ok (a, m)
        | Except.error PyErr.binasciiError => Except.ok ([], "image/jpeg")
        | Except.error PyErr.valueError => Except.ok ([], "image/jpeg")
        | Except.error e => Except.error e
    else
      Except.error PyErr.typeError
  | InputData.intData _ => Except.ok ([], "image/jpeg")
  | InputData.noneData => Except.ok ([], "image/jpeg")

/-- Embeds `torch.norm(v)` for a 1-d tensor: the Euclidean (L2) norm. -/
noncomputable def l2norm (v : List ℝ) : ℝ :=
  Real.sqrt ((v.map (fun x => x * x)).sum)

/-- Embeds the in-place update `v /= v.norm(dim=-1, keepdim=True)`
in `SimilarityCalculator.compute_similarity` (classifier.py:13-14). -/
noncomputable def normalizeVec (v : List ℝ) : List ℝ :=
  v.map (fun x => x / l2norm v)

/-- Dot product of two vectors, as computed by the matrix product
`image_features @ text_features.T` for one row of `text_features`. -/
def dotProd (a b : List ℝ) : ℝ :=
  (List.zipWith (fun x y => x * y) a b).sum

/-- Embeds `SimilarityCalculator.compute_similarity` (classifier.py:12-16):
both embeddings are L2-normalized by dividing by their norm (with no
guard against a zero norm), and the similarity vector is the row of dot
products.  The function has no raise path. -/
noncomputable def compute_similarity (imageFeatures : List ℝ)
    (textFeatures : List (List ℝ)) : List ℝ :=
  textFeatures.map (fun t => dotProd (normalizeVec imageFeatures) (normalizeVec t))

/-- Embeds `torch.softmax(s, dim=-1)` over the real numbers
(`ProbabilityConverter.to_probabilities`, classifier.py:20-21). -/
noncomputable def softmax (s : List ℝ) : List ℝ :=
  s.map (fun x => Real.exp x / ((s.map Real.exp).sum))

/-- Embeds `np.argmax`: the first index at which the list attains its
maximum (0 for the empty list, matching no claim we rely on there). -/
noncomputable def argmax : List ℝ → Nat
  | [] => 0
  | x :: xs => if xs ≠ [] ∧ x < xs.getD (argmax xs) 0 then argmax xs + 1 else 0

/-- One entry of the classifier output:
`dict(label=..., confidence=...)` (classifier.py:83). -/
structure ScoreEntry where
  label : String
  confidence : ℝ

/-- The comparison used by `results.sort(key=lambda x: x["confidence"],
reverse=True)`: entry `a` may come before entry `b` when its confidence
is at least as large.  Python list sort is stable, which
`List.mergeSort` models exactly. -/
noncomputable def confDesc (a b : ScoreEntry) : Bool :=
  decide (b.confidence ≤ a.confidence)

/-- Embeds the stable descending in-place sort on line 86 of
classifier.py. -/
noncomputable def sortByConfDesc (l : List ScoreEntry) : List ScoreEntry :=
  l.mergeSort confDesc

/-- The mutable state of a `ZeroShotClassifier` instance
(classifier.py:23-29): the model name and the `classes` / `prompts`
fields that `set_classes` assigns. -/
structure ZeroShotClassifier where
  model_name : String
  classes : List String
  prompts : List String
deriving DecidableEq, Repr

/-- A freshly constructed `ZeroShotClassifier()` (classifier.py:24-29):
default model name, empty classes and prompts. -/
def initClassifier : ZeroShotClassifier :=
  { model_name := "openai/clip-vit-base-patch32", classes := [], prompts := [] }

/-- The fixed prompt template of `set_classes` (classifier.py:48). -/
def promptTemplate (label : String) : String :=
  "a photo of a " ++ label

/-- Embeds `ZeroShotClassifier.set_classes` (classifier.py:40-50): the
supplied labels are assigned to the `classes` field and the prompt list
derived from them to the `prompts` field of the instance. -/
def set_classes (c : ZeroShotClassifier) (classes : List String) :
    ZeroShotClassifier :=
  { c with classes := classes, prompts := classes.map promptTemplate }

/-- Embeds `ZeroShotClassifier.reset_classes` (classifier.py:52-56). -/
def reset_classes (c : ZeroShotClassifier) : ZeroShotClassifier :=
  { c with classes := [], prompts := [] }

/-- The CLIP model oracle: given an image array and the prompt list it
returns the image embedding and one text embedding per prompt (the
Hugging Face CLIP contract guarantees the count, hence the subtype). -/
def EmbedOracle : Type :=
  List Nat → (p : List String) → List ℝ × { t : List (List ℝ) // t.length = p.length }

/-- The similarity vector computed on line 78 of classifier.py for a
given classifier state and image. -/
noncomputable def simsOf (embed : EmbedOracle) (c : ZeroShotClassifier)
    (img : List Nat) : List ℝ :=
  compute_similarity (embed img c.prompts).1 (embed img c.prompts).2.1

/-- The probability vector computed on line 80 of classifier.py. -/
noncomputable def probsOf (embed : EmbedOracle) (c : ZeroShotClassifier)
    (img : List Nat) : List ℝ :=
  softmax (simsOf embed c img)

/-- The unsorted `results` list built on line 83 of classifier.py: one
entry per class, pairing `classes[i]` with `probabilities[i]`. -/
noncomputable def resultsOf (embed : EmbedOracle) (c : ZeroShotClassifier)
    (img : List Nat) : List ScoreEntry :=
  List.zipWith (fun l p => ScoreEntry.mk l p) c.classes (probsOf embed c img)

/-- The dictionary returned by `classify_image` (classifier.py:87-91). -/
structure ClassifyOutput where
  prediction : ScoreEntry
  other_predictions : List ScoreEntry
  model_name : String

/-- Embeds `ZeroShotClassifier.classify_image` (classifier.py:58-91):
raise `ValueError` when no prompts are set; otherwise embed, score,
softmax, take `results[np.argmax(probabilities)]` as the prediction
(before sorting — the in-place sort on line 86 does not change the
already-extracted `prediction` dict), and sort the full list by
confidence descending for `other_predictions`. -/
noncomputable def classify_image (embed : EmbedOracle)
    (c : ZeroShotClassifier) (img : List Nat) :
    Except PyErr ClassifyOutput :=
  if c.prompts = [] then Except.error PyErr.valueError
  else
    Except.ok
      { prediction :=
          (resultsOf embed c img).getD (argmax (probsOf embed c img))
            (ScoreEntry.mk "" 0)
        other_predictions := sortByConfDesc (resultsOf embed c img)
        model_name := c.model_name }

/-- Embeds `ClassifierProcessor.process` (facade.py:12-16): the labels
of the request are written onto the shared classifier instance with
`set_classes`, then `classify_image` runs on the updated instance.  The
returned pair is (result, state of the shared classifier after the
call). -/
noncomputable def ClassifierProcessor.process (embed : EmbedOracle)
    (c : ZeroShotClassifier) (img : List Nat) (labels : List String) :
    Except PyErr ClassifyOutput × ZeroShotClassifier :=
  let c2 := set_classes c labels
  (classify_image embed c2 img, c2)

/-- The error kind of the specification's taxonomy used for comparison
with the source scorer. -/
inductive SpecError where
  | numericError
deriving DecidableEq, Repr

/-- Modelled from the spec (§4.3 step 1): a scorer in which "normalizing
by a zero-norm vector is a NumericError ... but must be guarded".  This
definition exists only to compare the spec's described behaviour with
the source `compute_similarity`, which has no such guard. -/
noncomputable def compute_similarity_guarded (imageFeatures : List ℝ)
    (textFeatures : List (List ℝ)) : Except SpecError (List ℝ) :=
  if l2norm imageFeatures = 0 ∨ ∃ t ∈ textFeatures, l2norm t = 0 then
    Except.error SpecError.numericError
  else
    Except.ok (compute_similarity imageFeatures textFeatures)

/-- A concrete oracle environment used to exercise the resolver on
closed inputs: the network always answers with body `[9]` and
Content-Type `image/png`, exactly one local path exists, image decoding
is the identity on byte buffers, and exactly one base64 payload
decodes. -/
def testEnv : ResolverEnv :=
  { fetch := fun _ => ([9], "image/png")
    pathExists := fun s => decide (s = "/tmp/cat.jpg")
    readFile := fun _ => [3]
    imgDecode := fun b => b
    b64decode := fun s => if s = "QUJD" then some [65, 66, 67] else none }

/-- A concrete CLIP oracle used to exercise the classifier on closed
inputs: the image embedding points in the first coordinate direction,
the prompt for "cat" gets the same direction and every other prompt the
second coordinate direction, so similarities are untied. -/
noncomputable def testEmbed : EmbedOracle := fun _ p =>
  ([1, 0],
   ⟨p.map (fun s => if s = "a photo of a cat" then [(1 : ℝ), 0] else [0, 1]),
    by simp⟩)

/-- A classifier state as produced by `set_classes` with the two labels
of the demonstration scenario. -/
def cDemo : ZeroShotClassifier :=
  set_classes initClassifier ["cat", "dog"]

/-- Helper: an indexing failure in a Python `split(sep)[i]` is an
`IndexError`. -/
lemma indexSplit_error {s : String} {sep : Char} {i : Nat} {e : PyErr}
    (h : indexSplit s sep i = Except.error e) : e = PyErr.indexError := by
  unfold indexSplit at h
  split at h <;> simp_all

/-- Helper: `base64_to_bytes` can only fail with `ValueError`,
`IndexError` or `binascii.Error`; in particular line 265's `TypeError`
is not among its outcomes. -/
lemma base64_to_bytes_errors (env : ResolverEnv) (s : String) (e : PyErr)
    (h : base64_to_bytes env s = Except.error e) :
    e = PyErr.valueError ∨ e = PyErr.indexError ∨ e = PyErr.binasciiError := by
  unfold base64_to_bytes at h
  split at h
  · rcases h1 : splitSemiOnce s with _ | ⟨m, rest⟩ <;> rw [h1] at h <;>
      simp only [] at h
    · simp_all
    · rcases h2 : indexSplit m ':' 1 with e1 | mime <;> rw [h2] at h <;>
        simp only [] at h
      · have := indexSplit_error h2
        simp_all
      · rcases h3 : indexSplit rest ',' 1 with e2 | payload <;> rw [h3] at h <;>
          simp only [] at h
        · have := indexSplit_error h3
          simp_all
        · rcases h4 : env.b64decode payload with _ | bs <;> rw [h4] at h <;> simp_all
  · rcases h4 : env.b64decode s with _ | bs <;> rw [h4] at h <;> simp_all

/-- Helper: the same error classification for `image_base64_to_array`. -/
lemma image_base64_to_array_errors (env : ResolverEnv) (s : String) (e : PyErr)
    (h : image_base64_to_array env s = Except.error e) :
    e = PyErr.valueError ∨ e = PyErr.indexError ∨ e = PyErr.binasciiError := by
  unfold image_base64_to_array at h
  rcases hb : base64_to_bytes env s with e1 | ⟨bs, m⟩ <;> rw [hb] at h
  · have : e1 = e := by simp_all
    exact this ▸ base64_to_bytes_errors env s e1 hb
  · simp at h

/-- Claim C7: resolution attempts the variants in the fixed precedence
order with the first match winning: an already-decoded array passes
through unchanged with mime defaulting to image/jpeg; otherwise bytes
are decoded; otherwise a string with an http:// or https:// prefix is
fetched as a URL; otherwise a string naming an existing local path is
read as a file; otherwise the string is treated as base64 text. -/
theorem c7_resolution_precedence (env : ResolverEnv) (mime : Option String) :
    (∀ a, image_input_to_array env (InputData.ndarray a) mime =
        Except.ok (a, "image/jpeg")) ∧
    (∀ b, ∃ m, image_input_to_array env (InputData.byteData b) mime =
        Except.ok (image_bytes_to_array env b, m)) ∧
    (∀ s, (strStartsWith s "http://" || strStartsWith s "https://") = true →
        image_input_to_array env (InputData.strData s) mime =
          Except.ok (image_url_to_array env s, "image/jpeg")) ∧
    (∀ s, (strStartsWith s "http://" || strStartsWith s "https://") = false →
        env.pathExists s = true →
        image_input_to_array env (InputData.strData s) mime =
          Except.ok (image_file_to_array env s, "image/jpeg")) ∧
    (∀ s a m, (strStartsWith s "http://" || strStartsWith s "https://") = false →
        env.pathExists s = false →
        image_base64_to_array env s = Except.ok (a, m) →
        image_input_to_array env (InputData.strData s) mime = Except.ok (a, m)) := by
  refine ⟨fun a => rfl, fun b => ⟨_, rfl⟩, ?_, ?_, ?_⟩
  · intro s h
    simp [image_input_to_array, h]
  · intro s h hp
    simp [image_input_to_array, h, hp]
  · intro s a m h hp hb
    simp [image_input_to_array, h, hp, hb]

/-- Witness for C7: each string variant exercised on a closed input in
the concrete test environment. -/
theorem c7_resolution_precedence_witness :
    ((strStartsWith "http://a.png" "http://" ||
        strStartsWith "http://a.png" "https://") = true ∧
      image_input_to_array testEnv (InputData.strData "http://a.png") none =
        Except.ok (image_url_to_array testEnv "http://a.png", "image/jpeg")) ∧
    ((strStartsWith "/tmp/cat.jpg" "http://" ||
        strStartsWith "/tmp/cat.jpg" "https://") = false ∧
      testEnv.pathExists "/tmp/cat.jpg" = true ∧
      image_input_to_array testEnv (InputData.strData "/tmp/cat.jpg") none =
        Except.ok (image_file_to_array testEnv "/tmp/cat.jpg", "image/jpeg")) ∧
    ((strStartsWith "QUJD" "http://" || strStartsWith "QUJD" "https://") = false ∧
      testEnv.pathExists "QUJD" = false ∧
      image_base64_to_array testEnv "QUJD" = Except.ok ([65, 66, 67], "unknown") ∧
      image_input_to_array testEnv (InputData.strData "QUJD") none =
        Except.ok ([65, 66, 67], "unknown")) :=
  ⟨⟨by decide,
    (c7_resolution_precedence testEnv none).2.2.1 "http://a.png" (by decide)⟩,
   ⟨by decide, by decide,
    (c7_resolution_precedence testEnv none).2.2.2.1 "/tmp/cat.jpg" (by decide)
      (by decide)⟩,
   ⟨by decide, by decide, by decide,
    (c7_resolution_precedence testEnv none).2.2.2.2 "QUJD" [65, 66, 67] "unknown"
      (by decide) (by decide) (by decide)⟩⟩

/-- Claim C10: inputs that are neither arrays nor bytes nor strings
(an int, or None) fall through every isinstance branch and the resolver
returns the initialized defaults, the empty array and image/jpeg, and
the TypeError raise on line 265 of imageio.py is unreachable for every
input whatsoever. -/
theorem c10_unsupported_type_falls_through :
    (∀ env mime, image_input_to_array env InputData.noneData mime =
        Except.ok ([], "image/jpeg")) ∧
    (∀ env mime n, image_input_to_array env (InputData.intData n) mime =
        Except.ok ([], "image/jpeg")) ∧
    (∀ env input mime,
        image_input_to_array env input mime ≠ Except.error PyErr.typeError) := by
  refine ⟨fun env mime => rfl, fun env mime n => rfl, ?_⟩
  intro env input mime h
  cases input with
  | ndarray a => simp [image_input_to_array] at h
  | byteData b => simp [image_input_to_array] at h
  | intData n => simp [image_input_to_array] at h
  | noneData => simp [image_input_to_array] at h
  | strData s =>
    simp only [image_input_to_array] at h
    split at h
    · simp at h
    · split at h
      · split at h
        · simp at h
        · rcases hb : image_base64_to_array env s with e | v <;> rw [hb] at h <;>
            (try simp only [] at h)
          · rcases e with _ | _ | _ | _ <;> simp_all
            rcases image_base64_to_array_errors env s PyErr.typeError hb
              with h1 | h1 | h1 <;> simp at h1
          · simp at h
      · next hdead => exact hdead trivial

/-- Counterexample to claim C2: in the concrete environment, the
malformed base64 string "!!!" (not a URL, not an existing path, and
rejected by the base64 decoder) does not make the resolver fail; the
caught exception is swallowed and the initialized defaults are
returned. -/
theorem c2_counterexample_swallowed_base64_failure :
    image_input_to_array testEnv (InputData.strData "!!!") none =
      Except.ok ([], "image/jpeg") ∧
    testEnv.b64decode "!!!" = none ∧
    testEnv.pathExists "!!!" = false ∧
    (strStartsWith "!!!" "http://" || strStartsWith "!!!" "https://") = false ∧
    ∀ e, image_input_to_array testEnv (InputData.strData "!!!") none ≠
      Except.error e := by
  refine ⟨by decide, by decide, by decide, by decide, ?_⟩
  intro e h
  rw [show image_input_to_array testEnv (InputData.strData "!!!") none =
      Except.ok ([], "image/jpeg") from rfl] at h
  simp at h

/-- Claim C2 as amended: for a string input that is not a URL and not an
existing local path, a base64 decoding failure (binascii.Error or
ValueError) is caught and logged, and the resolver returns the
initialized defaults (empty array, image/jpeg) instead of raising any
error; no DecodeError exists in the code. -/
theorem c2_amended_base64_failure_returns_defaults (env : ResolverEnv)
    (s : String) (mime : Option String)
    (hurl : (strStartsWith s "http://" || strStartsWith s "https://") = false)
    (hpath : env.pathExists s = false)
    (hb64 : image_base64_to_array env s = Except.error PyErr.binasciiError ∨
      image_base64_to_array env s = Except.error PyErr.valueError) :
    image_input_to_array env (InputData.strData s) mime =
      Except.ok ([], "image/jpeg") := by
  rcases hb64 with hb | hb <;> simp [image_input_to_array, hurl, hpath, hb]

/-- Witness for the amended C2, on the closed malformed input "!!!". -/
theorem c2_amended_witness :
    ((strStartsWith "!!!" "http://" || strStartsWith "!!!" "https://") = false ∧
      testEnv.pathExists "!!!" = false ∧
      image_base64_to_array testEnv "!!!" = Except.error PyErr.binasciiError) ∧
    image_input_to_array testEnv (InputData.strData "!!!") none =
      Except.ok ([], "image/jpeg") :=
  ⟨⟨by decide, by decide, by decide⟩,
   c2_amended_base64_failure_returns_defaults testEnv "!!!" none (by decide)
     (by decide) (Or.inl (by decide))⟩

/-- Counterexample to claim C5: for a URL input the resolver returns the
default mime image/jpeg even though the HTTP response headers in the
test environment carry Content-Type image/png; the header value is
discarded by image_url_to_array. -/
theorem c5_counterexample_header_mime_discarded :
    image_input_to_array testEnv (InputData.strData "http://a.png") none =
      Except.ok ([9], "image/jpeg") ∧
    (testEnv.fetch "http://a.png").2 = "image/png" ∧
    ("image/jpeg" : String) ≠ "image/png" := by
  refine ⟨by decide, by decide, by decide⟩

/-- Claim C5 as amended: a string beginning with http:// or https:// is
fetched over the network and the response body is decoded as an image,
but the mime type returned is always the default image/jpeg; the
Content-Type of the response headers is never consulted. -/
theorem c5_amended_url_fetch_default_mime (env : ResolverEnv) (s : String)
    (mime : Option String)
    (h : (strStartsWith s "http://" || strStartsWith s "https://") = true) :
    image_input_to_array env (InputData.strData s) mime =
      Except.ok (env.imgDecode (env.fetch s).1, "image/jpeg") := by
  simp [image_input_to_array, h, image_url_to_array]

/-- Witness for the amended C5, on a closed URL input. -/
theorem c5_amended_witness :
    (strStartsWith "http://a.png" "http://" ||
      strStartsWith "http://a.png" "https://") = true ∧
    image_input_to_array testEnv (InputData.strData "http://a.png") none =
      Except.ok (testEnv.imgDecode (testEnv.fetch "http://a.png").1, "image/jpeg") :=
  ⟨by decide, c5_amended_url_fetch_default_mime testEnv "http://a.png" none (by decide)⟩

/-- Counterexample to claim C1: a classify call through the shared
processor stores the per-request labels and prompts as fields of the
long-lived classifier instance; they are still there after the call
(the freshly constructed instance had empty fields), and a subsequent
classify_image on the shared instance reads the stored prompt state
(it passes the no-classes guard without any labels of its own). -/
theorem c1_counterexample_labels_stored_on_shared_instance :
    (ClassifierProcessor.process testEmbed initClassifier [0] ["cat"]).2.classes =
      ["cat"] ∧
    (ClassifierProcessor.process testEmbed initClassifier [0] ["cat"]).2.prompts =
      ["a photo of a cat"] ∧
    initClassifier.classes = [] ∧ initClassifier.prompts = [] ∧
    (∃ out, classify_image testEmbed
        (ClassifierProcessor.process testEmbed initClassifier [0] ["cat"]).2 [0] =
        Except.ok out) := by
  refine ⟨by decide, by decide, rfl, rfl, ?_⟩
  unfold classify_image
  rw [if_neg (show ¬(ClassifierProcessor.process testEmbed initClassifier [0]
      ["cat"]).2.prompts = [] from by decide)]
  exact ⟨_, rfl⟩

/-- Claim C1 as amended: every process call writes the request's labels
and the derived prompts onto the shared classifier instance via
set_classes, and that mutable state survives the call. -/
theorem c1_amended_labels_are_instance_state (embed : EmbedOracle)
    (c : ZeroShotClassifier) (img : List Nat) (labels : List String) :
    (ClassifierProcessor.process embed c img labels).2.classes = labels ∧
    (ClassifierProcessor.process embed c img labels).2.prompts =
      labels.map promptTemplate :=
  ⟨rfl, rfl⟩

/-- Claim C4: a classification request with an empty label set fails
with the configuration error (the ValueError raised on classifier.py:67
for an empty prompt list, the spec's ConfigurationError) and no result
of any kind is returned. -/
theorem c4_empty_label_set_errors (embed : EmbedOracle)
    (c : ZeroShotClassifier) (img : List Nat) :
    (ClassifierProcessor.process embed c img []).1 =
      Except.error PyErr.valueError ∧
    ∀ out, (ClassifierProcessor.process embed c img []).1 ≠ Except.ok out := by
  refine ⟨rfl, ?_⟩
  intro out h
  rw [show (ClassifierProcessor.process embed c img []).1 =
      Except.error PyErr.valueError from rfl] at h
  simp at h

/-- Helper: the prompt template is injective, so distinct labels give
distinct prompts and duplicate labels give duplicate prompts. -/
lemma promptTemplate_injective : Function.Injective promptTemplate := by
  intro a b h
  have h2 := congrArg String.data h
  simp only [promptTemplate, String.data_append] at h2
  exact String.ext (List.append_cancel_left h2)

/-- Claim C9: set_classes builds exactly one prompt per label, in input
order, by substituting the label into the fixed template "a photo of a
{label}", and duplicate labels are kept, yielding duplicate prompts. -/
theorem c9_prompt_building (c : ZeroShotClassifier) (labels : List String) :
    (set_classes c labels).prompts.length = labels.length ∧
    (∀ i, i < labels.length →
      (set_classes c labels).prompts.getD i "" =
        "a photo of a " ++ labels.getD i "") ∧
    (∀ l, (set_classes c labels).prompts.count ("a photo of a " ++ l) =
      labels.count l) := by
  refine ⟨by simp [set_classes], ?_, ?_⟩
  · intro i hi
    simp only [set_classes]
    rw [List.getD_eq_getElem?_getD, List.getD_eq_getElem?_getD,
        List.getElem?_map, List.getElem?_eq_getElem hi]
    simp [promptTemplate]
  · intro l
    simpa [set_classes, promptTemplate] using
      List.count_map_of_injective labels promptTemplate promptTemplate_injective l

/-- Witness for C9, with a duplicated label to exhibit duplicate
prompts. -/
theorem c9_prompt_building_witness :
    ((0 : Nat) < (["cat", "cat"] : List String).length) ∧
    (set_classes initClassifier ["cat", "cat"]).prompts.getD 0 "" =
      "a photo of a " ++ (["cat", "cat"] : List String).getD 0 "" ∧
    (set_classes initClassifier ["cat", "cat"]).prompts.count
        ("a photo of a " ++ "cat") =
      (["cat", "cat"] : List String).count "cat" :=
  ⟨by decide,
   (c9_prompt_building initClassifier ["cat", "cat"]).2.1 0 (by decide),
   (c9_prompt_building initClassifier ["cat", "cat"]).2.2 "cat"⟩

/-- Helper: dividing every mapped summand by a constant divides the
sum. -/
lemma sum_map_div (l : List ℝ) (g : ℝ → ℝ) (c : ℝ) :
    (l.map (fun y => g y / c)).sum = (l.map g).sum / c := by
  induction l with
  | nil => simp
  | cons x xs ih => simp [ih, add_div]

/-- Helper: dividing a vector by its nonzero Euclidean norm yields a
unit vector, which is what L2-normalization means. -/
lemma l2norm_normalizeVec {v : List ℝ} (hv : l2norm v ≠ 0) :
    l2norm (normalizeVec v) = 1 := by
  have h0 : 0 ≤ (v.map (fun x => x * x)).sum :=
    List.sum_nonneg (by
      intro x hx
      obtain ⟨y, _, rfl⟩ := List.mem_map.mp hx
      exact mul_self_nonneg y)
  have hpos : 0 < l2norm v := lt_of_le_of_ne (Real.sqrt_nonneg _) (Ne.symm hv)
  have key : ((normalizeVec v).map (fun x => x * x)).sum =
      ((v.map fun x => x * x).sum) / (l2norm v * l2norm v) := by
    show ((v.map (fun x => x / l2norm v)).map (fun x => x * x)).sum = _
    rw [List.map_map]
    have hcomp : ((fun x => x * x) ∘ fun x => x / l2norm v) =
        fun x => (x * x) / (l2norm v * l2norm v) := by
      funext x
      simp only [Function.comp_apply]
      ring
    rw [hcomp]
    exact sum_map_div v (fun x => x * x) (l2norm v * l2norm v)
  show Real.sqrt (((normalizeVec v).map fun x => x * x).sum) = 1
  rw [key, Real.sqrt_div h0, Real.sqrt_mul_self hpos.le]
  show l2norm v / l2norm v = 1
  exact div_self hv

/-- Counterexample to claim C6: the source scorer has no zero-norm
guard.  On a zero-norm image embedding it proceeds with the division
and produces a similarity vector, where the spec-modelled guarded
scorer reports the NumericError. -/
theorem c6_counterexample_zero_norm_not_guarded :
    compute_similarity [0, 0] [[1, 0]] = [0] ∧
    compute_similarity_guarded [0, 0] [[1, 0]] =
      Except.error SpecError.numericError := by
  have hz : l2norm [0, 0] = 0 := by simp [l2norm]
  constructor
  · simp [compute_similarity, normalizeVec, dotProd, hz]
  · simp [compute_similarity_guarded, hz]

/-- Claim C6 as amended: both embeddings are L2-normalized by dividing
by their Euclidean norm (for a nonzero norm this produces a unit
vector), but the zero-norm case is not guarded: the scorer is total, a
full similarity vector is produced even for a zero-norm embedding, and
the classifier never reports a numeric error (its only error is the
empty-prompts ValueError). -/
theorem c6_amended_normalization_without_guard :
    (∀ v : List ℝ, l2norm v ≠ 0 → l2norm (normalizeVec v) = 1) ∧
    (∀ (embed : EmbedOracle) (c : ZeroShotClassifier) (img : List Nat),
      c.prompts ≠ [] → ∃ out, classify_image embed c img = Except.ok out) ∧
    (∀ textFeatures : List (List ℝ),
      (compute_similarity [0, 0] textFeatures).length = textFeatures.length) := by
  refine ⟨fun v hv => l2norm_normalizeVec hv, ?_, ?_⟩
  · intro embed c img hne
    unfold classify_image
    rw [if_neg hne]
    exact ⟨_, rfl⟩
  · intro t
    simp [compute_similarity]

/-- Witness for the amended C6, at a closed unit-direction vector and
the closed demonstration classifier state. -/
theorem c6_amended_witness :
    l2norm [1, 0] ≠ 0 ∧ l2norm (normalizeVec [1, 0]) = 1 ∧
    cDemo.prompts ≠ [] ∧
    (∃ out, classify_image testEmbed cDemo [0] = Except.ok out) := by
  have h1 : l2norm [(1 : ℝ), 0] = 1 := by simp [l2norm]
  have hne : l2norm [(1 : ℝ), 0] ≠ 0 := by
    rw [h1]
    norm_num
  exact ⟨hne, c6_amended_normalization_without_guard.1 [1, 0] hne, by decide,
    c6_amended_normalization_without_guard.2.1 testEmbed cDemo [0] (by decide)⟩

/-- Helper: the argmax of a nonempty list is a valid index. -/
lemma argmax_lt_length : ∀ {l : List ℝ}, l ≠ [] → argmax l < l.length
  | [], h => absurd rfl h
  | x :: xs, _ => by
    simp only [argmax, List.length_cons]
    split
    · next h => exact Nat.succ_lt_succ (argmax_lt_length h.1)
    · exact Nat.succ_pos _

/-- Helper: the value at the argmax index bounds every element of the
list. -/
lemma le_getD_argmax : ∀ (l : List ℝ), ∀ x ∈ l, x ≤ l.getD (argmax l) 0
  | [], x, hx => absurd hx (List.not_mem_nil x)
  | a :: l, x, hx => by
    simp only [argmax]
    split
    · next h =>
      rw [List.getD_cons_succ]
      rcases List.mem_cons.mp hx with rfl | hx2
      · exact le_of_lt h.2
      · exact le_getD_argmax l x hx2
    · next h =>
      rw [List.getD_cons_zero]
      rcases List.mem_cons.mp hx with rfl | hx2
      · exact le_refl x
      · have hl : l ≠ [] := List.ne_nil_of_mem hx2
        have hle : ¬ a < l.getD (argmax l) 0 := fun hlt => h ⟨hl, hlt⟩
        exact (le_getD_argmax l x hx2).trans (not_lt.mp hle)

/-- Helper: a strictly monotone map does not change the first index at
which the maximum is attained. -/
lemma argmax_map_strictMono {f : ℝ → ℝ} (hf : StrictMono f) :
    ∀ l : List ℝ, argmax (l.map f) = argmax l
  | [] => rfl
  | a :: l => by
    simp only [List.map_cons, argmax]
    rw [argmax_map_strictMono hf l]
    rcases eq_or_ne l [] with rfl | hl
    · simp
    · have hlt : argmax l < l.length := argmax_lt_length hl
      have hgetD : (l.map f).getD (argmax l) 0 = f (l.getD (argmax l) 0) := by
        rw [List.getD_eq_getElem?_getD, List.getD_eq_getElem?_getD,
            List.getElem?_map, List.getElem?_eq_getElem hlt]
        rfl
      rw [hgetD]
      have hiff : (l.map f ≠ [] ∧ f a < f (l.getD (argmax l) 0)) ↔
          (l ≠ [] ∧ a < l.getD (argmax l) 0) := by
        simp [hl, hf.lt_iff_lt]
      rw [if_congr hiff rfl rfl]

/-- Helper: the softmax denominator of a nonempty score list is
positive. -/
lemma expSum_pos {s : List ℝ} (hs : s ≠ []) : 0 < (s.map Real.exp).sum :=
  List.sum_pos _
    (by
      intro x hx
      obtain ⟨y, _, rfl⟩ := List.mem_map.mp hx
      exact Real.exp_pos y)
    (by simpa using hs)

/-- Helper: each softmax component is a strictly monotone function of
the raw score. -/
lemma softmax_component_mono {s : List ℝ} (hs : s ≠ []) :
    StrictMono (fun x => Real.exp x / (s.map Real.exp).sum) := by
  intro a b hab
  dsimp only
  exact (div_lt_div_iff_of_pos_right (expSum_pos hs)).mpr (Real.exp_lt_exp.mpr hab)

/-- Helper: softmax does not change the argmax index, because it is a
strictly monotone transformation of each score. -/
lemma argmax_softmax {s : List ℝ} (hs : s ≠ []) :
    argmax (softmax s) = argmax s := by
  show argmax (s.map fun x => Real.exp x / (s.map Real.exp).sum) = argmax s
  exact argmax_map_strictMono (softmax_component_mono hs) s

/-- Helper: softmax preserves distinctness of the scores. -/
lemma nodup_softmax {s : List ℝ} (hs : s ≠ []) (h : s.Nodup) :
    (softmax s).Nodup := by
  show (s.map fun x => Real.exp x / (s.map Real.exp).sum).Nodup
  exact h.map (softmax_component_mono hs).injective

/-- Helper: projecting the confidences out of the results list recovers
the probability vector. -/
lemma map_confidence_zipWith : ∀ (cs : List String) (ps : List ℝ),
    cs.length = ps.length →
    (List.zipWith (fun l p => ScoreEntry.mk l p) cs ps).map
      ScoreEntry.confidence = ps
  | [], [], _ => rfl
  | [], _ :: _, h => by simp at h
  | _ :: _, [], h => by simp at h
  | c :: cs, p :: ps, h => by
    have ih := map_confidence_zipWith cs ps (by simpa using h)
    simpa using ih

/-- Helper: projecting the labels out of the results list recovers the
class list. -/
lemma map_label_zipWith : ∀ (cs : List String) (ps : List ℝ),
    cs.length = ps.length →
    (List.zipWith (fun l p => ScoreEntry.mk l p) cs ps).map
      ScoreEntry.label = cs
  | [], [], _ => rfl
  | [], _ :: _, h => by simp at h
  | _ :: _, [], h => by simp at h
  | c :: cs, p :: ps, h => by
    have ih := map_label_zipWith cs ps (by simpa using h)
    simpa using ih

/-- Helper: an in-range entry of the results list pairs the label and
the probability at the same index. -/
lemma getD_zipWith_mk : ∀ (cs : List String) (ps : List ℝ) (i : Nat),
    i < cs.length → i < ps.length →
    (List.zipWith (fun l p => ScoreEntry.mk l p) cs ps).getD i
        (ScoreEntry.mk "" 0) =
      ScoreEntry.mk (cs.getD i "") (ps.getD i 0)
  | c :: cs, p :: ps, 0, _, _ => rfl
  | c :: cs, p :: ps, i + 1, h1, h2 => by
    have h1a : i < cs.length := by
      simp only [List.length_cons] at h1
      omega
    have h2a : i < ps.length := by
      simp only [List.length_cons] at h2
      omega
    simpa using getD_zipWith_mk cs ps i h1a h2a
  | [], _, i, h1, _ => absurd h1 (by simp)
  | _ :: _, [], i, _, h2 => absurd h2 (by simp)

/-- Helper: an in-range getD is a member of the list. -/
lemma getD_mem_of_lt {α : Type} {l : List α} {i : Nat} {d : α}
    (h : i < l.length) : l.getD i d ∈ l := by
  rw [List.getD_eq_getElem?_getD, List.getElem?_eq_getElem h]
  exact List.getElem_mem h

/-- Helper: the descending-confidence comparison is transitive. -/
lemma confDesc_trans : ∀ (a b c : ScoreEntry),
    confDesc a b → confDesc b c → confDesc a c := by
  intro a b c h1 h2
  simp only [confDesc, decide_eq_true_eq] at h1 h2 ⊢
  exact h2.trans h1

/-- Helper: the descending-confidence comparison is total. -/
lemma confDesc_total : ∀ (a b : ScoreEntry), confDesc a b || confDesc b a := by
  intro a b
  simp only [confDesc, Bool.or_eq_true, decide_eq_true_eq]
  exact le_total _ _

/-- Helper: when the confidences are pairwise distinct, the head of the
stable descending sort is the unique entry of maximal confidence. -/
lemma head_sortByConfDesc {l : List ScoreEntry} {e : ScoreEntry}
    (he : e ∈ l) (hmax : ∀ x ∈ l, x.confidence ≤ e.confidence)
    (hn : (l.map ScoreEntry.confidence).Nodup) :
    (sortByConfDesc l).head? = some e := by
  have hperm : List.Perm (l.mergeSort confDesc) l := List.mergeSort_perm l confDesc
  have hsorted := List.sorted_mergeSort confDesc_trans confDesc_total l
  show (l.mergeSort confDesc).head? = some e
  rcases hsort : l.mergeSort confDesc with _ | ⟨h, t⟩
  · exfalso
    rw [hsort] at hperm
    have hl : l = [] := hperm.symm.eq_nil
    subst hl
    exact absurd he (List.not_mem_nil e)
  · have hmem : h ∈ l := by
      rw [hsort] at hperm
      exact hperm.mem_iff.mp (List.mem_cons_self h t)
    have hall : ∀ x ∈ l, x.confidence ≤ h.confidence := by
      intro x hx
      have hx2 : x ∈ h :: t := by
        rw [hsort] at hperm
        exact hperm.mem_iff.mpr hx
      rcases List.mem_cons.mp hx2 with rfl | hx3
      · exact le_refl _
      · have hsorted2 := hsort ▸ hsorted
        have hrel := List.rel_of_pairwise_cons hsorted2 hx3
        simpa [confDesc, decide_eq_true_eq] using hrel
    have heq : h = e := by
      have h1 : h.confidence ≤ e.confidence := hmax h hmem
      have h2 : e.confidence ≤ h.confidence := hall e he
      exact List.inj_on_of_nodup_map hn hmem he (le_antisymm h1 h2)
    simp [heq]

/-- Helper: the similarity vector has one score per prompt. -/
lemma length_simsOf (embed : EmbedOracle) (c : ZeroShotClassifier)
    (img : List Nat) : (simsOf embed c img).length = c.prompts.length := by
  simp only [simsOf, compute_similarity, List.length_map]
  exact (embed img c.prompts).2.2

/-- Helper: with at least one prompt the similarity vector is
nonempty. -/
lemma simsOf_ne_nil {embed : EmbedOracle} {c : ZeroShotClassifier}
    {img : List Nat} (hne : c.prompts ≠ []) : simsOf embed c img ≠ [] := by
  intro h
  apply hne
  have hl := length_simsOf embed c img
  rw [h] at hl
  exact List.length_eq_zero.mp hl.symm

/-- Helper: the probability vector has one entry per prompt. -/
lemma length_probsOf (embed : EmbedOracle) (c : ZeroShotClassifier)
    (img : List Nat) : (probsOf embed c img).length = c.prompts.length := by
  simp only [probsOf, softmax, List.length_map]
  exact length_simsOf embed c img

/-- Helper: with at least one prompt the probability vector is
nonempty. -/
lemma probsOf_ne_nil {embed : EmbedOracle} {c : ZeroShotClassifier}
    {img : List Nat} (hne : c.prompts ≠ []) : probsOf embed c img ≠ [] := by
  intro h
  apply hne
  have hl := length_probsOf embed c img
  rw [h] at hl
  exact List.length_eq_zero.mp hl.symm

/-- Helper: the confidences of the results list are the probability
vector. -/
lemma map_confidence_resultsOf (embed : EmbedOracle) (c : ZeroShotClassifier)
    (img : List Nat) (hplen : c.classes.length = (probsOf embed c img).length) :
    (resultsOf embed c img).map ScoreEntry.confidence = probsOf embed c img :=
  map_confidence_zipWith c.classes (probsOf embed c img) hplen

/-- Helper: the labels of the results list are the class list. -/
lemma map_label_resultsOf (embed : EmbedOracle) (c : ZeroShotClassifier)
    (img : List Nat) (hplen : c.classes.length = (probsOf embed c img).length) :
    (resultsOf embed c img).map ScoreEntry.label = c.classes :=
  map_label_zipWith c.classes (probsOf embed c img) hplen

/-- Claim C3: the top prediction is the entry of the unsorted results
list at the argmax index of the raw similarity vector (the code takes
the argmax of the probabilities, which coincides because softmax is
strictly monotone), it is determined before the list is sorted, and for
non-tied similarities the first entry of the sorted list equals the top
prediction. -/
theorem c3_top_prediction_from_raw_argmax (embed : EmbedOracle)
    (c : ZeroShotClassifier) (img : List Nat)
    (hne : c.prompts ≠ [])
    (hlen : c.classes.length = c.prompts.length)
    (hnodup : (simsOf embed c img).Nodup) :
    ∃ out, classify_image embed c img = Except.ok out ∧
      argmax (probsOf embed c img) = argmax (simsOf embed c img) ∧
      out.prediction = (resultsOf embed c img).getD
        (argmax (simsOf embed c img)) (ScoreEntry.mk "" 0) ∧
      out.other_predictions.head? = some out.prediction := by
  have hargmax : argmax (probsOf embed c img) = argmax (simsOf embed c img) :=
    argmax_softmax (simsOf_ne_nil hne)
  have hplen : c.classes.length = (probsOf embed c img).length := by
    rw [length_probsOf]
    exact hlen
  have hlt : argmax (probsOf embed c img) < (probsOf embed c img).length :=
    argmax_lt_length (probsOf_ne_nil hne)
  have hltc : argmax (probsOf embed c img) < c.classes.length := by
    rw [hplen]
    exact hlt
  have hrlen : (resultsOf embed c img).length = c.classes.length := by
    simp only [resultsOf, List.length_zipWith]
    rw [← hplen, Nat.min_self]
  refine ⟨ClassifyOutput.mk
      ((resultsOf embed c img).getD (argmax (probsOf embed c img))
        (ScoreEntry.mk "" 0))
      (sortByConfDesc (resultsOf embed c img)) c.model_name,
    by unfold classify_image; rw [if_neg hne], hargmax, ?_, ?_⟩
  · show (resultsOf embed c img).getD (argmax (probsOf embed c img)) _ = _
    rw [hargmax]
  · have hgetD : (resultsOf embed c img).getD (argmax (probsOf embed c img))
        (ScoreEntry.mk "" 0) =
        ScoreEntry.mk (c.classes.getD (argmax (probsOf embed c img)) "")
          ((probsOf embed c img).getD (argmax (probsOf embed c img)) 0) :=
      getD_zipWith_mk c.classes (probsOf embed c img) _ hltc hlt
    apply head_sortByConfDesc
    · exact getD_mem_of_lt (by rw [hrlen]; exact hltc)
    · intro x hx
      rw [hgetD]
      have hxconf : x.confidence ∈ probsOf embed c img := by
        rw [← map_confidence_resultsOf embed c img hplen]
        exact List.mem_map_of_mem _ hx
      exact le_getD_argmax (probsOf embed c img) x.confidence hxconf
    · show ((resultsOf embed c img).map ScoreEntry.confidence).Nodup
      rw [map_confidence_resultsOf embed c img hplen]
      exact nodup_softmax (simsOf_ne_nil hne) hnodup

/-- Claim C8: the sorted list returned as the full ranking has exactly
one entry per supplied label (as count and as a label multiset), is
sorted by confidence descending, and equal-confidence entries keep the
order they had in the unsorted results list (stable sort). -/
theorem c8_all_ranking_shape (embed : EmbedOracle) (c : ZeroShotClassifier)
    (img : List Nat)
    (hne : c.prompts ≠ [])
    (hlen : c.classes.length = c.prompts.length) :
    ∃ out, classify_image embed c img = Except.ok out ∧
      out.other_predictions.length = c.classes.length ∧
      List.Perm (out.other_predictions.map ScoreEntry.label) c.classes ∧
      out.other_predictions.Pairwise
        (fun a b => b.confidence ≤ a.confidence) ∧
      (∀ a b, [a, b].Sublist (resultsOf embed c img) →
        a.confidence = b.confidence →
        [a, b].Sublist out.other_predictions) := by
  have hplen : c.classes.length = (probsOf embed c img).length := by
    rw [length_probsOf]
    exact hlen
  refine ⟨ClassifyOutput.mk
      ((resultsOf embed c img).getD (argmax (probsOf embed c img))
        (ScoreEntry.mk "" 0))
      (sortByConfDesc (resultsOf embed c img)) c.model_name,
    by unfold classify_image; rw [if_neg hne], ?_, ?_, ?_, ?_⟩
  · show ((resultsOf embed c img).mergeSort confDesc).length = _
    simp only [List.length_mergeSort, resultsOf, List.length_zipWith]
    rw [← hplen, Nat.min_self]
  · show List.Perm ((sortByConfDesc (resultsOf embed c img)).map
        ScoreEntry.label) c.classes
    have hperm := List.mergeSort_perm (resultsOf embed c img) confDesc
    have h2 := hperm.map ScoreEntry.label
    rw [map_label_resultsOf embed c img hplen] at h2
    exact h2
  · have hs := List.sorted_mergeSort confDesc_trans confDesc_total
      (resultsOf embed c img)
    exact hs.imp (by
      intro a b hab
      simpa [confDesc, decide_eq_true_eq] using hab)
  · intro a b hab hconf
    exact List.pair_sublist_mergeSort confDesc_trans confDesc_total
      (by simp [confDesc, hconf]) hab

/-- Helper: in the closed demonstration scenario the similarity vector
evaluates to [1, 0], which is untied. -/
lemma simsOf_demo : simsOf testEmbed cDemo [0] = [1, 0] := by
  have hp : cDemo.prompts = ["a photo of a cat", "a photo of a dog"] := by decide
  have hn1 : l2norm [(1 : ℝ), 0] = 1 := by simp [l2norm]
  have hn2 : l2norm [(0 : ℝ), 1] = 1 := by simp [l2norm]
  simp only [simsOf, testEmbed, hp, List.map_cons, List.map_nil]
  rw [if_pos trivial,
      if_neg (show ¬("a photo of a dog" = "a photo of a cat") from by decide)]
  simp [compute_similarity, normalizeVec, dotProd, hn1, hn2]

/-- Witness for C3, on the closed demonstration scenario. -/
theorem c3_top_prediction_witness :
    cDemo.prompts ≠ [] ∧ cDemo.classes.length = cDemo.prompts.length ∧
    (simsOf testEmbed cDemo [0]).Nodup ∧
    (∃ out, classify_image testEmbed cDemo [0] = Except.ok out ∧
      argmax (probsOf testEmbed cDemo [0]) = argmax (simsOf testEmbed cDemo [0]) ∧
      out.prediction = (resultsOf testEmbed cDemo [0]).getD
        (argmax (simsOf testEmbed cDemo [0])) (ScoreEntry.mk "" 0) ∧
      out.other_predictions.head? = some out.prediction) := by
  have hnd : (simsOf testEmbed cDemo [0]).Nodup := by
    rw [simsOf_demo]
    simp
  exact ⟨by decide, by decide, hnd,
    c3_top_prediction_from_raw_argmax testEmbed cDemo [0] (by decide)
      (by decide) hnd⟩

/-- Witness for C8, on the closed demonstration scenario. -/
theorem c8_all_ranking_shape_witness :
    cDemo.prompts ≠ [] ∧ cDemo.classes.length = cDemo.prompts.length ∧
    (∃ out, classify_image testEmbed cDemo [0] = Except.ok out ∧
      out.other_predictions.length = cDemo.classes.length ∧
      List.Perm (out.other_predictions.map ScoreEntry.label) cDemo.classes ∧
      out.other_predictions.Pairwise
        (fun a b => b.confidence ≤ a.confidence) ∧
      (∀ a b, [a, b].Sublist (resultsOf testEmbed cDemo [0]) →
        a.confidence = b.confidence →
        [a, b].Sublist out.other_predictions)) :=
  ⟨by decide, by decide,
    c8_all_ranking_shape testEmbed cDemo [0] (by decide) (by decide)⟩

/-- Witness for C4, at a closed processor state and empty label list. -/
theorem c4_empty_label_set_errors_witness :
    (ClassifierProcessor.process testEmbed initClassifier [0] []).1 =
      Except.error PyErr.valueError ∧
    (ClassifierProcessor.process testEmbed initClassifier [0] []).1 ≠
      Except.ok (ClassifyOutput.mk (ScoreEntry.mk "" 0) [] "") :=
  ⟨(c4_empty_label_set_errors testEmbed initClassifier [0]).1,
   (c4_empty_label_set_errors testEmbed initClassifier [0]).2
     (ClassifyOutput.mk (ScoreEntry.mk "" 0) [] "")⟩

/-- Witness for C10, at closed unsupported inputs. -/
theorem c10_unsupported_type_falls_through_witness :
    image_input_to_array testEnv InputData.noneData none =
      Except.ok ([], "image/jpeg") ∧
    image_input_to_array testEnv (InputData.intData 7) none =
      Except.ok ([], "image/jpeg") ∧
    image_input_to_array testEnv (InputData.strData "!!!") none ≠
      Except.error PyErr.typeError :=
  ⟨c10_unsupported_type_falls_through.1 testEnv none,
   c10_unsupported_type_falls_through.2.1 testEnv none 7,
   c10_unsupported_type_falls_through.2.2 testEnv (InputData.strData "!!!") none⟩
